import Mathlib

/-!
Verification development for the GNBSIM operator charm (src/charm.py).

The reconciliation handler (on config-changed), the invalid-configuration
resolution, the simulation action handler, and the workload-command executor
are shallowly embedded below.  Juju key/value configuration store is modelled
as a record of optional string values (one per declared option); the workload
container (pebble), the Multus readiness probe, and the unit-address lookup are
modelled as an explicit record of collaborator responses.  Every side effect is
recorded in an explicit trace so that ordering and absence of effects can be
stated and proved.
-/

namespace Gnbsim

/-- Exceptions raised by the embedded Python code: `int(None)` raises
TypeError, `int("abc")` raises ValueError, `None.split` raises AttributeError,
a failing `container.push` raises a pebble error, and `wait_output` raises
ExecError (process failure, carrying stderr) or ChangeError (carrying err). -/
inductive Exn where
  | typeError
  | valueError
  | attributeError
  | pushError
  | execError (stderr : Option String)
  | changeError (err : String)
  deriving DecidableEq, Repr

/-- The Juju configuration store of this charm: one optional string per
declared option, `none` when the option is unset (model.config.get returns
None).  Field order follows the order of the checks in _get_invalid_configs. -/
structure Config where
  amf_hostname : Option String
  amf_port : Option String
  gnb_ip_address : Option String
  icmp_packet_destination : Option String
  imsi : Option String
  mcc : Option String
  mnc : Option String
  sd : Option String
  sst : Option String
  tac : Option String
  upf_gateway : Option String
  upf_ip_address : Option String
  usim_key : Option String
  usim_opc : Option String
  usim_sequence_number : Option String
  deriving DecidableEq, Repr

/-- Python truthiness of an Optional[str]: None and the empty string are
falsy, every other string is truthy. -/
def truthyStr : Option String → Bool
  | none => false
  | some s => !s.data.isEmpty

/-- Whitespace characters stripped by the Python int() before parsing. -/
def isSpaceChar (c : Char) : Bool :=
  c == ' ' || c == '\t' || c == '\n' || c == '\r'

/-- Strip leading and trailing whitespace from a character list. -/
def trimWs (l : List Char) : List Char :=
  ((l.dropWhile isSpaceChar).reverse.dropWhile isSpaceChar).reverse

/-- Decimal value of a digit list. -/
def digitsVal (l : List Char) : Nat :=
  l.foldl (fun a c => a * 10 + (c.toNat - 48)) 0

/-- the Python int() applied to a string: strip surrounding whitespace, accept an
optional sign followed by one or more decimal digits, raise ValueError
otherwise (digit-grouping underscores are not modelled; no claim depends on
them). -/
def pyIntOfString (s : String) : Except Exn Int :=
  match trimWs s.data with
  | [] => .error .valueError
  | c :: rest =>
    let signDigits : Bool × List Char :=
      if c == '-' then (true, rest)
      else if c == '+' then (false, rest)
      else (false, c :: rest)
    if signDigits.2 ≠ [] ∧ signDigits.2.all Char.isDigit then
      .ok (if signDigits.1 then -(digitsVal signDigits.2 : Int) else (digitsVal signDigits.2 : Int))
    else .error .valueError

/-- the Python int() applied to an Optional[str]: int(None) raises TypeError. -/
def pyIntOpt : Option String → Except Exn Int
  | none => .error .typeError
  | some s => pyIntOfString s

/-- the Python str()/f-string rendering of an Optional[str] value. -/
def pyStr : Option String → String
  | none => "None"
  | some s => s

/-- The characters before the first '/'. -/
def splitHeadChars : List Char → List Char
  | [] => []
  | c :: rest => if c = '/' then [] else c :: splitHeadChars rest

/-- s.split("/")[0]: the text before the first "/" (the whole string when no
"/" occurs). -/
def pySplitHead (s : String) : String :=
  String.mk (splitHeadChars s.data)

/-- The single quote character, used by the Python repr of strings. -/
def squote : String := (Char.ofNat 39).toString

/-- repr of one Python string (validated names contain no quotes to escape). -/
def quoteStr (s : String) : String := squote ++ s ++ squote

/-- ", "-separated concatenation, as inside the Python repr of a list. -/
def commaSep : List String → String
  | [] => ""
  | [s] => s
  | s :: rest => s ++ ", " ++ commaSep rest

/-- the Python repr of a list of strings, as interpolated by the f-string in the
blocked-status message. -/
def pyReprList (l : List String) : String :=
  "[" ++ commaSep (l.map quoteStr) ++ "]"

/-- The substring relation (the Python `in` on strings), as a proposition. -/
def strContains (hay needle : String) : Prop :=
  needle.data <:+: hay.data

/-- The substring relation as a boolean, the form the code evaluates. -/
def pyInStr (needle hay : String) : Bool :=
  decide (needle.data <:+: hay.data)

/-! Constants from the top of charm.py. -/

def BASE_CONFIG_PATH : String := "/etc/gnbsim"

def CONFIG_FILE_NAME : String := "gnb.conf"

def HTTP_SERVER_PORT : Nat := 6000

/-- The fixed destination path of the configuration artifact. -/
def configFilePath : String := BASE_CONFIG_PATH ++ "/" ++ CONFIG_FILE_NAME

/-! Configuration getters (_get_*_from_config). -/

def get_amf_hostname_from_config (c : Config) : Option String := c.amf_hostname

/-- int(self.model.config.get("amf-port")): raises on unset or non-integer. -/
def get_amf_port_from_config (c : Config) : Except Exn Int := pyIntOpt c.amf_port

def get_gnb_ip_address_from_config (c : Config) : Option String := c.gnb_ip_address

def get_icmp_packet_destination_from_config (c : Config) : Option String :=
  c.icmp_packet_destination

def get_imsi_from_config (c : Config) : Option String := c.imsi

def get_mcc_from_config (c : Config) : Option String := c.mcc

def get_mnc_from_config (c : Config) : Option String := c.mnc

def get_sd_from_config (c : Config) : Option String := c.sd

/-- int(self.model.config.get("sst")): raises on unset or non-integer. -/
def get_sst_from_config (c : Config) : Except Exn Int := pyIntOpt c.sst

def get_tac_from_config (c : Config) : Option String := c.tac

def get_upf_gateway_from_config (c : Config) : Option String := c.upf_gateway

def get_upf_ip_address_from_config (c : Config) : Option String := c.upf_ip_address

def get_usim_key_from_config (c : Config) : Option String := c.usim_key

def get_usim_opc_from_config (c : Config) : Option String := c.usim_opc

def get_usim_sequence_number_from_config (c : Config) : Option String :=
  c.usim_sequence_number

/-- _get_invalid_configs: walks the fifteen options in declaration order and
appends the name of every falsy one; the two integer getters apply int() at
their position in the walk, so their exceptions escape the resolution. -/
def getInvalidConfigs (c : Config) : Except Exn (List String) :=
  let e1 := if !truthyStr (get_amf_hostname_from_config c) then ["amf-hostname"] else []
  match get_amf_port_from_config c with
  | .error err => .error err
  | .ok amfPort =>
    let e2 := if amfPort = 0 then ["amf-port"] else []
    let e3 := if !truthyStr (get_gnb_ip_address_from_config c) then ["gnb-ip-address"] else []
    let e4 := if !truthyStr (get_icmp_packet_destination_from_config c) then ["icmp-packet-destination"] else []
    let e5 := if !truthyStr (get_imsi_from_config c) then ["imsi"] else []
    let e6 := if !truthyStr (get_mcc_from_config c) then ["mcc"] else []
    let e7 := if !truthyStr (get_mnc_from_config c) then ["mnc"] else []
    let e8 := if !truthyStr (get_sd_from_config c) then ["sd"] else []
    match get_sst_from_config c with
    | .error err => .error err
    | .ok sstVal =>
      let e9 := if sstVal = 0 then ["sst"] else []
      let e10 := if !truthyStr (get_tac_from_config c) then ["tac"] else []
      let e11 := if !truthyStr (get_upf_gateway_from_config c) then ["upf-gateway"] else []
      let e12 := if !truthyStr (get_upf_ip_address_from_config c) then ["upf-ip-address"] else []
      let e13 := if !truthyStr (get_usim_key_from_config c) then ["usim-key"] else []
      let e14 := if !truthyStr (get_usim_opc_from_config c) then ["usim-opc"] else []
      let e15 := if !truthyStr (get_usim_sequence_number_from_config c) then ["usim-sequence-number"] else []
      .ok (e1 ++ e2 ++ e3 ++ e4 ++ e5 ++ e6 ++ e7 ++ e8 ++ e9 ++ e10 ++ e11 ++ e12 ++ e13 ++ e14 ++ e15)

/-! The workload / collaborator model. -/

/-- Outcome of one pebble exec + wait_output in the container. -/
inductive ExecOutcome where
  | ok (stdout stderr : Option String)
  | execError (stderr : Option String)
  | changeError (err : String)
  deriving DecidableEq, Repr

/-- Responses of the external collaborators during one event: pebble
connectivity, the two exists() probes, the Multus readiness probe, the
unit-get address, whether container.push succeeds, and the outcome pebble
returns for each executed command.  `fileContent` is the artifact content
already present in the container; the charm never reads it (no diff check). -/
structure Workload where
  canConnect : Bool
  basePathExists : Bool
  configFileExists : Bool
  multusReady : Bool
  podIp : String
  pushOk : Bool
  exec : String → ExecOutcome
  fileContent : Option String

/-- One recorded side effect at the workload boundary. -/
inductive Effect where
  | push (path content : String)
  | exec (command : String) (timeout : Nat) (environment : Option (List (String × String)))
  deriving DecidableEq, Repr

/-- Timeout recorded on an exec effect. -/
def effectTimeout : Effect → Nat
  | .push _ _ => 0
  | .exec _ t _ => t

/-- The readiness checks of _on_config_changed, in source order. -/
inductive Check where
  | paramsValid
  | containerConnect
  | storageAttached
  | multusReady
  deriving DecidableEq, Repr

/-- All four checks in the order the handler evaluates them. -/
def allChecks : List Check :=
  [.paramsValid, .containerConnect, .storageAttached, .multusReady]

/-- The unit statuses the charm sets. -/
inductive UnitStatus where
  | blocked (msg : String)
  | waiting (msg : String)
  | active
  deriving DecidableEq, Repr

/-- Outcome of one reconciliation attempt: the status set (none when an
exception escaped before any status assignment), the side-effect trace, the
readiness checks that were evaluated, whether the event was deferred, and the
escaped exception if any. -/
structure ReconcileResult where
  status : Option UnitStatus
  effects : List Effect
  checks : List Check
  deferred : Bool
  error : Option Exn
  deriving DecidableEq, Repr

/-- _exec_command_in_workload: every command is executed with the fixed
timeout of 30 seconds and the caller-supplied environment; returns the
outcome together with the recorded effect. -/
def execCommandInWorkload (w : Workload) (command : String)
    (environment : Option (List (String × String))) : ExecOutcome × Effect :=
  (w.exec command, .exec command 30 environment)

/-- The route-replacement command built by _create_upf_route. -/
def routeCmd (c : Config) : String :=
  "ip route replace " ++ pyStr (get_upf_ip_address_from_config c) ++ " via "
    ++ pyStr (get_upf_gateway_from_config c)

/-- Modelled from the spec: the Jinja template src/templates/config.yaml.j2 is
not among the repository sources.  Per the spec (section 4.3) the rendered
document embeds every parameter verbatim as a scalar field, numeric fields as
decimal integers (not quoted), plus the control-endpoint address and port
supplied at render time.  Rendered here as one "key: value" line per field,
keyed by the render kwargs of charm.py. -/
def concatKVLines : List (String × String) → String
  | [] => ""
  | kv :: rest => kv.1 ++ ": " ++ kv.2 ++ "\n" ++ concatKVLines rest

/-- Modelled from the spec: _render_config_file as the pure document builder
described in section 4.3 (see concatKVLines); argument names and order follow
the signature in charm.py. -/
def renderConfigFile (amf_hostname : String) (amf_port : Int) (gnb_ip_address : String)
    (http_server_ip : String) (http_server_port : Nat) (icmp_packet_destination : String)
    (imsi : String) (mcc : String) (mnc : String) (sd : String) (sst : Int) (tac : String)
    (upf_gateway : String) (upf_ip_address : String) (usim_key : String) (usim_opc : String)
    (usim_sequence_number : String) : String :=
  concatKVLines
    [("amf_hostname", amf_hostname),
     ("amf_port", toString amf_port),
     ("gnb_ip_address", gnb_ip_address),
     ("http_server_ip", http_server_ip),
     ("http_server_port", toString http_server_port),
     ("icmp_packet_destination", icmp_packet_destination),
     ("imsi", imsi),
     ("mcc", mcc),
     ("mnc", mnc),
     ("sd", sd),
     ("sst", toString sst),
     ("tac", tac),
     ("upf_gateway", upf_gateway),
     ("upf_ip_address", upf_ip_address),
     ("usim_key", usim_key),
     ("usim_opc", usim_opc),
     ("usim_sequence_number", usim_sequence_number)]

/-- Evaluation of the keyword arguments of the render call in
_on_config_changed (lines 92-110): int() may raise on amf-port, `.split` on an
unset gnb-ip-address raises AttributeError, int() may raise on sst; the raises
occur in that kwarg order. -/
def renderArgs (c : Config) (w : Workload) : Except Exn String :=
  match get_amf_port_from_config c with
  | .error err => .error err
  | .ok amfPort =>
    match get_gnb_ip_address_from_config c with
    | none => .error .attributeError
    | some gnbRaw =>
      match get_sst_from_config c with
      | .error err => .error err
      | .ok sstVal =>
        .ok (renderConfigFile (pyStr (get_amf_hostname_from_config c)) amfPort
          (pySplitHead gnbRaw) w.podIp HTTP_SERVER_PORT
          (pyStr (get_icmp_packet_destination_from_config c))
          (pyStr (get_imsi_from_config c)) (pyStr (get_mcc_from_config c))
          (pyStr (get_mnc_from_config c)) (pyStr (get_sd_from_config c)) sstVal
          (pyStr (get_tac_from_config c)) (pyStr (get_upf_gateway_from_config c))
          (pyStr (get_upf_ip_address_from_config c)) (pyStr (get_usim_key_from_config c))
          (pyStr (get_usim_opc_from_config c))
          (pyStr (get_usim_sequence_number_from_config c)))

/-- _on_config_changed: the ordered readiness gate followed by render, write,
route provisioning and the Active status.  Exceptions escaping a collaborator
call leave `status` at none and are recorded in `error`. -/
def onConfigChanged (c : Config) (w : Workload) : ReconcileResult :=
  match getInvalidConfigs c with
  | .error err =>
    { status := none, effects := [], checks := [.paramsValid], deferred := false,
      error := some err }
  | .ok invalidConfigs =>
    if invalidConfigs ≠ [] then
      { status := some (.blocked ("Configurations are invalid: " ++ pyReprList invalidConfigs)),
        effects := [], checks := [.paramsValid], deferred := false, error := none }
    else if w.canConnect = false then
      { status := some (.waiting "Waiting for container to be ready"), effects := [],
        checks := [.paramsValid, .containerConnect], deferred := true, error := none }
    else if w.basePathExists = false then
      { status := some (.waiting "Waiting for storage to be attached"), effects := [],
        checks := [.paramsValid, .containerConnect, .storageAttached], deferred := true,
        error := none }
    else if w.multusReady = false then
      { status := some (.waiting "Waiting for Multus to be ready"), effects := [],
        checks := allChecks, deferred := false, error := none }
    else
      match renderArgs c w with
      | .error err =>
        { status := none, effects := [], checks := allChecks, deferred := false,
          error := some err }
      | .ok content =>
        if w.pushOk then
          match execCommandInWorkload w (routeCmd c) none with
          | (.ok _ _, eff) =>
            { status := some .active, effects := [.push configFilePath content, eff],
              checks := allChecks, deferred := false, error := none }
          | (.execError st, eff) =>
            { status := none, effects := [.push configFilePath content, eff],
              checks := allChecks, deferred := false, error := some (.execError st) }
          | (.changeError e, eff) =>
            { status := none, effects := [.push configFilePath content, eff],
              checks := allChecks, deferred := false, error := some (.changeError e) }
        else
          { status := none, effects := [.push configFilePath content], checks := allChecks,
            deferred := false, error := some .pushError }

/-- Outcome of one start-simulation action: event.fail message, event
results, and the commands executed. -/
structure ActionOutcome where
  failure : Option String
  results : Option (List (String × String))
  effects : List Effect
  deriving DecidableEq, Repr

/-- The simulation command of _on_start_simulation_action. -/
def simulationCommand : String :=
  "/gnbsim/bin/gnbsim --cfg " ++ BASE_CONFIG_PATH ++ "/" ++ CONFIG_FILE_NAME

/-- The _environment_variables property. -/
def environmentVariables (w : Workload) : List (String × String) :=
  [("MEM_LIMIT", "1Gi"), ("POD_IP", w.podIp)]

/-- _on_start_simulation_action: the two explicit preconditions, then the
simulation execution and the classification of its diagnostic stream. -/
def onStartSimulationAction (w : Workload) : ActionOutcome :=
  if w.canConnect = false then
    { failure := some "Container is not ready", results := none, effects := [] }
  else if w.configFileExists = false then
    { failure := some "Config file is not written", results := none, effects := [] }
  else
    match execCommandInWorkload w simulationCommand (some (environmentVariables w)) with
    | (.ok _ stderrOpt, eff) =>
      if !truthyStr stderrOpt then
        { failure := some "No output in simulation", results := none, effects := [eff] }
      else
        { failure := none,
          results := some
            [("success", if pyInStr "Profile Status: PASS" (pyStr stderrOpt) then "true" else "false"),
             ("info", "run juju debug-log to get more information.")],
          effects := [eff] }
    | (.execError st, eff) =>
      { failure := some ("Failed to execute simulation: " ++ pyStr st), results := none,
        effects := [eff] }
    | (.changeError e, eff) =>
      { failure := some ("Failed to execute simulation: " ++ e), results := none,
        effects := [eff] }

/-! Specification-side derived notions used to state the claims. -/

/-- The declared parameters, paired with their current value, in the
declaration order of _get_invalid_configs. -/
def paramPairs (c : Config) : List (String × Option String) :=
  [("amf-hostname", c.amf_hostname), ("amf-port", c.amf_port),
   ("gnb-ip-address", c.gnb_ip_address), ("icmp-packet-destination", c.icmp_packet_destination),
   ("imsi", c.imsi), ("mcc", c.mcc), ("mnc", c.mnc), ("sd", c.sd), ("sst", c.sst),
   ("tac", c.tac), ("upf-gateway", c.upf_gateway), ("upf-ip-address", c.upf_ip_address),
   ("usim-key", c.usim_key), ("usim-opc", c.usim_opc),
   ("usim-sequence-number", c.usim_sequence_number)]

/-- The names of the unset-or-empty parameters, in declaration order. -/
def unsetOrEmptyNames (c : Config) : List String :=
  ((paramPairs c).filter (fun p => !truthyStr p.2)).map Prod.fst

/-- The contents pushed to the container during one reconciliation. -/
def pushedContents (r : ReconcileResult) : List String :=
  r.effects.filterMap (fun e => match e with | .push _ s => some s | _ => none)

/-- The twelve string-typed parameter values (all options except the two
integer ones and the split gnb-ip-address) as the render call passes them. -/
def stringParamValues (c : Config) : List String :=
  [pyStr (get_amf_hostname_from_config c), pyStr (get_icmp_packet_destination_from_config c),
   pyStr (get_imsi_from_config c), pyStr (get_mcc_from_config c),
   pyStr (get_mnc_from_config c), pyStr (get_sd_from_config c),
   pyStr (get_tac_from_config c), pyStr (get_upf_gateway_from_config c),
   pyStr (get_upf_ip_address_from_config c), pyStr (get_usim_key_from_config c),
   pyStr (get_usim_opc_from_config c), pyStr (get_usim_sequence_number_from_config c)]

/-- Whether an Except is a success, as a boolean. -/
def exceptOk {ε α : Type} : Except ε α → Bool
  | .ok _ => true
  | .error _ => false

/-- A parameter value is invalid in the sense of the validation rule of the
specification: unset, empty, or (for the two integer options) failing
integer parsing. -/
def specInvalidValue (isIntTyped : Bool) (v : Option String) : Bool :=
  if isIntTyped then !exceptOk (pyIntOpt v) else !truthyStr v

/-! Concrete inputs used by witnesses and counterexamples. -/

/-- A configuration with every option set to a well-formed value. -/
def cfgAllSet : Config :=
  { amf_hostname := some "amf", amf_port := some "38412",
    gnb_ip_address := some "192.168.251.5/24",
    icmp_packet_destination := some "192.168.250.3", imsi := some "001010100007487",
    mcc := some "001", mnc := some "01", sd := some "102030", sst := some "1",
    tac := some "1", upf_gateway := some "192.168.252.1",
    upf_ip_address := some "192.168.252.3",
    usim_key := some "5122250214c33e723a5dd523fc145fc0",
    usim_opc := some "981d464c7c52eb6e5036234984ad0bcf",
    usim_sequence_number := some "16f3b3f70fc2" }

/-- A workload in which every collaborator call succeeds and the simulation
prints a passing profile report on its diagnostic stream. -/
def wOk : Workload :=
  { canConnect := true, basePathExists := true, configFileExists := true,
    multusReady := true, podIp := "10.1.1.7", pushOk := true,
    exec := fun _ => .ok (some "") (some "Summary\nProfile Status: PASS\n"),
    fileContent := none }

instance {ε α : Type} [DecidableEq ε] [DecidableEq α] : DecidableEq (Except ε α)
  | .error a, .error b =>
    if h : a = b then .isTrue (by rw [h])
    else .isFalse (by intro he; injection he with h2; exact h h2)
  | .error _, .ok _ => .isFalse (by intro he; exact Except.noConfusion he)
  | .ok _, .error _ => .isFalse (by intro he; exact Except.noConfusion he)
  | .ok a, .ok b =>
    if h : a = b then .isTrue (by rw [h])
    else .isFalse (by intro he; injection he with h2; exact h h2)

/-! String-containment helper lemmas. -/

theorem strContains_trans {a b c : String} (h1 : strContains a b)
    (h2 : strContains b c) : strContains a c :=
  h2.trans h1

theorem strContains_appendRight (s : String) {t n : String}
    (h : strContains t n) : strContains (s ++ t) n := by
  unfold strContains at h ⊢
  rw [String.data_append]
  exact h.trans (List.suffix_append s.data t.data).isInfix

theorem strContains_appendLeft (t : String) {s n : String}
    (h : strContains s n) : strContains (s ++ t) n := by
  unfold strContains at h ⊢
  rw [String.data_append]
  exact h.trans (List.prefix_append s.data t.data).isInfix

theorem strContains_self (s : String) : strContains s s :=
  List.infix_rfl

/-- Every value of a key/value list occurs in the document built from it. -/
theorem contains_concatKVLines (k : String) {kvs : List (String × String)} {v : String}
    (h : (k, v) ∈ kvs) : strContains (concatKVLines kvs) v := by
  induction kvs with
  | nil => simp at h
  | cons kv rest ih =>
    rcases List.mem_cons.mp h with h | h
    · rw [concatKVLines, ← h]
      exact strContains_appendLeft _
        (strContains_appendLeft _ (strContains_appendRight _ (strContains_self v)))
    · rw [concatKVLines]
      exact strContains_appendRight _ (ih h)

/-- Every element occurs in the comma-separated concatenation. -/
theorem contains_commaSep {xs : List String} {s : String} (h : s ∈ xs) :
    strContains (commaSep xs) s := by
  induction xs with
  | nil => simp at h
  | cons x rest ih =>
    cases rest with
    | nil =>
      rw [List.mem_singleton] at h
      rw [h]
      exact strContains_self x
    | cons y t =>
      show strContains (x ++ ", " ++ commaSep (y :: t)) s
      rcases List.mem_cons.mp h with h | h
      · rw [h]
        exact strContains_appendLeft _ (strContains_appendLeft _ (strContains_self x))
      · exact strContains_appendRight _ (ih h)

/-- Every name of the list occurs in its Python repr. -/
theorem contains_pyReprList {l : List String} {n : String} (h : n ∈ l) :
    strContains (pyReprList l) n := by
  have h1 : strContains (commaSep (l.map quoteStr)) (quoteStr n) :=
    contains_commaSep (List.mem_map_of_mem quoteStr h)
  have h2 : strContains (quoteStr n) n :=
    strContains_appendLeft _ (strContains_appendRight _ (strContains_self n))
  rw [pyReprList]
  exact strContains_appendLeft _ (strContains_appendRight _ (strContains_trans h1 h2))

/-- The boolean substring test agrees with the substring proposition. -/
theorem pyInStr_iff {needle hay : String} :
    pyInStr needle hay = true ↔ strContains hay needle := by
  rw [pyInStr, strContains]
  exact decide_eq_true_iff

/-! Facts about the integer getters. -/

/-- A value on which int() succeeds is set and non-empty, hence truthy. -/
theorem pyIntOpt_ok_truthy {o : Option String} {v : Int}
    (h : pyIntOpt o = .ok v) : truthyStr o = true := by
  cases o with
  | none => simp [pyIntOpt] at h
  | some s =>
    cases hd : s.data with
    | nil => simp [pyIntOpt, pyIntOfString, trimWs, hd, List.dropWhile] at h
    | cons c l => simp [truthyStr, hd]

/-- A truthy optional string is a some. -/
theorem truthy_some {o : Option String} (h : truthyStr o = true) :
    ∃ s, o = some s := by
  cases o with
  | none => simp [truthyStr] at h
  | some s => exact ⟨s, rfl⟩

/-- A singleton-or-nil conditional equal to nil forces the condition false. -/
theorem singleton_ite_eq_nil {p : Prop} [Decidable p] {n : String}
    (h : (if p then [n] else ([] : List String)) = []) : ¬ p := by
  intro hp
  rw [if_pos hp] at h
  exact List.cons_ne_nil n [] h

/-- From a Bool-conditioned singleton conditional equal to nil, the Bool is
false. -/
theorem singleton_bite_eq_nil {b : Bool} {n : String}
    (h : (if b = true then [n] else ([] : List String)) = []) : b = false := by
  have := singleton_ite_eq_nil h
  simpa using this

/-! Inversion facts for the invalid-configuration resolution. -/

/-- When the resolution succeeds with the empty list, both integer getters
succeeded with non-zero values and every string option is set and
non-empty. -/
theorem getInvalidConfigs_ok_nil {c : Config} (h : getInvalidConfigs c = .ok []) :
    (∃ a, get_amf_port_from_config c = .ok a ∧ a ≠ 0) ∧
    (∃ s, get_sst_from_config c = .ok s ∧ s ≠ 0) ∧
    truthyStr c.amf_hostname = true ∧ truthyStr c.gnb_ip_address = true ∧
    truthyStr c.icmp_packet_destination = true ∧ truthyStr c.imsi = true ∧
    truthyStr c.mcc = true ∧ truthyStr c.mnc = true ∧ truthyStr c.sd = true ∧
    truthyStr c.tac = true ∧ truthyStr c.upf_gateway = true ∧
    truthyStr c.upf_ip_address = true ∧ truthyStr c.usim_key = true ∧
    truthyStr c.usim_opc = true ∧ truthyStr c.usim_sequence_number = true := by
  unfold getInvalidConfigs at h
  cases hA : get_amf_port_from_config c with
  | error e => rw [hA] at h; exact absurd h (by simp)
  | ok a =>
    rw [hA] at h
    cases hS : get_sst_from_config c with
    | error e => rw [hS] at h; exact absurd h (by simp)
    | ok s =>
      rw [hS] at h
      simp only [Except.ok.injEq, List.append_eq_nil, and_assoc] at h
      obtain ⟨h1, h2, h3, h4, h5, h6, h7, h8, h9, h10, h11, h12, h13, h14, h15⟩ := h
      refine ⟨⟨a, rfl, singleton_ite_eq_nil h2⟩, ⟨s, rfl, singleton_ite_eq_nil h9⟩,
        ?_, ?_, ?_, ?_, ?_, ?_, ?_, ?_, ?_, ?_, ?_, ?_, ?_⟩
      · simpa [get_amf_hostname_from_config] using singleton_bite_eq_nil h1
      · simpa [get_gnb_ip_address_from_config] using singleton_bite_eq_nil h3
      · simpa [get_icmp_packet_destination_from_config] using singleton_bite_eq_nil h4
      · simpa [get_imsi_from_config] using singleton_bite_eq_nil h5
      · simpa [get_mcc_from_config] using singleton_bite_eq_nil h6
      · simpa [get_mnc_from_config] using singleton_bite_eq_nil h7
      · simpa [get_sd_from_config] using singleton_bite_eq_nil h8
      · simpa [get_tac_from_config] using singleton_bite_eq_nil h10
      · simpa [get_upf_gateway_from_config] using singleton_bite_eq_nil h11
      · simpa [get_upf_ip_address_from_config] using singleton_bite_eq_nil h12
      · simpa [get_usim_key_from_config] using singleton_bite_eq_nil h13
      · simpa [get_usim_opc_from_config] using singleton_bite_eq_nil h14
      · simpa [get_usim_sequence_number_from_config] using singleton_bite_eq_nil h15

/-- The reconciliation outcome when the resolution reports a non-empty list:
Blocked with the interpolated repr of the list, only the parameter check
evaluated, no side effect, no deferral, no exception. -/
theorem onConfigChanged_blocked {c : Config} (w : Workload) {l : List String}
    (h : getInvalidConfigs c = .ok l) (hne : l ≠ []) :
    onConfigChanged c w =
      { status := some (.blocked ("Configurations are invalid: " ++ pyReprList l)),
        effects := [], checks := [.paramsValid], deferred := false, error := none } := by
  simp only [onConfigChanged, h]
  rw [if_pos hne]

/-- The reconciliation outcome when the resolution raises: the exception
escapes with no status, no side effect and no further check. -/
theorem onConfigChanged_raise {c : Config} (w : Workload) {err : Exn}
    (h : getInvalidConfigs c = .error err) :
    onConfigChanged c w =
      { status := none, effects := [], checks := [.paramsValid], deferred := false,
        error := some err } := by
  simp only [onConfigChanged, h]

/-- With a fully valid configuration the render-argument evaluation succeeds,
and the produced document is renderConfigFile applied to the getter values,
the gnb-ip-address being split at the first "/". -/
theorem renderArgs_ok {c : Config} (w : Workload) (h : getInvalidConfigs c = .ok []) :
    ∃ g a s, get_gnb_ip_address_from_config c = some g ∧
      get_amf_port_from_config c = .ok a ∧ get_sst_from_config c = .ok s ∧
      renderArgs c w = .ok (renderConfigFile (pyStr (get_amf_hostname_from_config c)) a
        (pySplitHead g) w.podIp HTTP_SERVER_PORT
        (pyStr (get_icmp_packet_destination_from_config c))
        (pyStr (get_imsi_from_config c)) (pyStr (get_mcc_from_config c))
        (pyStr (get_mnc_from_config c)) (pyStr (get_sd_from_config c)) s
        (pyStr (get_tac_from_config c)) (pyStr (get_upf_gateway_from_config c))
        (pyStr (get_upf_ip_address_from_config c)) (pyStr (get_usim_key_from_config c))
        (pyStr (get_usim_opc_from_config c))
        (pyStr (get_usim_sequence_number_from_config c))) := by
  obtain ⟨⟨a, hA, _⟩, ⟨s, hS, _⟩, _, hg, _⟩ := getInvalidConfigs_ok_nil h
  obtain ⟨g, hg2⟩ := truthy_some hg
  refine ⟨g, a, s, hg2, hA, hS, ?_⟩
  simp only [renderArgs, hA, get_gnb_ip_address_from_config, hg2, hS]

/-- The reconciliation outcome once the whole gate has passed, as a function
of the push result and the route-command outcome. -/
theorem onConfigChanged_pass {c : Config} {w : Workload} {content : String}
    (h : getInvalidConfigs c = .ok []) (hc : w.canConnect = true)
    (hb : w.basePathExists = true) (hm : w.multusReady = true)
    (hr : renderArgs c w = .ok content) :
    onConfigChanged c w =
      (if w.pushOk then
        match w.exec (routeCmd c) with
        | .ok _ _ =>
          { status := some .active,
            effects := [.push configFilePath content, .exec (routeCmd c) 30 none],
            checks := allChecks, deferred := false, error := none }
        | .execError st =>
          { status := none,
            effects := [.push configFilePath content, .exec (routeCmd c) 30 none],
            checks := allChecks, deferred := false, error := some (.execError st) }
        | .changeError e =>
          { status := none,
            effects := [.push configFilePath content, .exec (routeCmd c) 30 none],
            checks := allChecks, deferred := false, error := some (.changeError e) }
      else
        { status := none, effects := [.push configFilePath content], checks := allChecks,
          deferred := false, error := some .pushError }) := by
  simp only [onConfigChanged, h, hc, hb, hm, hr, execCommandInWorkload]
  rw [if_neg (by simp : ¬ (([] : List String) ≠ [])),
    if_neg (by simp : ¬ (true = false)), if_neg (by simp : ¬ (true = false)),
    if_neg (by simp : ¬ (true = false))]
  cases w.pushOk
  · rfl
  · cases w.exec (routeCmd c) <;> rfl

/-- Filtering a cons and mapping, rewritten as an append of a conditional
singleton. -/
theorem filtermap_cons_ite {α β : Type} (p : α → Bool) (f : α → β) (x : α) (l : List α) :
    (List.filter p (x :: l)).map f
      = (if p x then [f x] else []) ++ (List.filter p l).map f := by
  by_cases h : p x = true
  · simp [List.filter_cons, h]
  · simp [List.filter_cons, h]

/-- When both integer getters succeed with non-zero values, the resolution
returns exactly the names of the unset-or-empty options, in declaration
order. -/
theorem getInvalidConfigs_eq_filter {c : Config} {a s : Int}
    (ha : get_amf_port_from_config c = .ok a) (ha0 : a ≠ 0)
    (hs : get_sst_from_config c = .ok s) (hs0 : s ≠ 0) :
    getInvalidConfigs c = .ok (unsetOrEmptyNames c) := by
  have ta : truthyStr c.amf_port = true := pyIntOpt_ok_truthy ha
  have ts : truthyStr c.sst = true := pyIntOpt_ok_truthy hs
  unfold getInvalidConfigs
  rw [ha, hs]
  unfold unsetOrEmptyNames paramPairs
  simp only [if_neg ha0, if_neg hs0, filtermap_cons_ite, List.filter_nil, List.map_nil, ta, ts,
    get_amf_hostname_from_config, get_gnb_ip_address_from_config,
    get_icmp_packet_destination_from_config, get_imsi_from_config, get_mcc_from_config,
    get_mnc_from_config, get_sd_from_config, get_tac_from_config,
    get_upf_gateway_from_config, get_upf_ip_address_from_config, get_usim_key_from_config,
    get_usim_opc_from_config, get_usim_sequence_number_from_config]
  simp [List.append_assoc]

/-- The action handler once both preconditions hold, as a function of the
outcome pebble reports for the simulation command. -/
theorem onStartSimulationAction_exec {w : Workload} (hc : w.canConnect = true)
    (hf : w.configFileExists = true) :
    onStartSimulationAction w =
      (match w.exec simulationCommand with
       | .ok _ stderrOpt =>
         if !truthyStr stderrOpt then
           { failure := some "No output in simulation", results := none,
             effects := [.exec simulationCommand 30 (some (environmentVariables w))] }
         else
           { failure := none,
             results := some
               [("success",
                 if pyInStr "Profile Status: PASS" (pyStr stderrOpt) then "true" else "false"),
                ("info", "run juju debug-log to get more information.")],
             effects := [.exec simulationCommand 30 (some (environmentVariables w))] }
       | .execError st =>
         { failure := some ("Failed to execute simulation: " ++ pyStr st), results := none,
           effects := [.exec simulationCommand 30 (some (environmentVariables w))] }
       | .changeError e =>
         { failure := some ("Failed to execute simulation: " ++ e), results := none,
           effects := [.exec simulationCommand 30 (some (environmentVariables w))] }) := by
  simp only [onStartSimulationAction, hc, hf, execCommandInWorkload]
  rw [if_neg (by simp : ¬ (true = false)), if_neg (by simp : ¬ (true = false))]
  cases w.exec simulationCommand <;> rfl

/-! Further concrete inputs for the claims. -/

/-- All options valid except amf-port, which is set to a non-integer. -/
def cfgPortNotInt : Config := { cfgAllSet with amf_port := some "abc" }

/-- All options valid except amf-port, which is unset. -/
def cfgPortUnset : Config := { cfgAllSet with amf_port := none }

/-- All options valid except sst, which is set to a non-integer. -/
def cfgSstNotInt : Config := { cfgAllSet with sst := some "two" }

/-- All options valid except sd, which is unset. -/
def cfgMissingSd : Config := { cfgAllSet with sd := none }

/-- All options valid except sd (unset) and usim-key (empty). -/
def cfgMissingTwo : Config := { cfgAllSet with sd := none, usim_key := some "" }

/-- All options valid except amf-port, which parses to the integer 0. -/
def cfgZeroPort : Config := { cfgAllSet with amf_port := some "0" }

/-- amf-port parses to the integer 0 while sst is set to a non-integer. -/
def cfgZeroAndBad : Config := { cfgAllSet with amf_port := some "0", sst := some "two" }

/-- A workload that is not reachable. -/
def wNoConnect : Workload := { wOk with canConnect := false }

/-- A reachable workload without the configuration artifact. -/
def wNoFile : Workload := { wOk with configFileExists := false }

/-- A workload whose push raises at the collaborator boundary. -/
def wPushFail : Workload := { wOk with pushOk := false }

/-- A workload in which every exec expires its timeout (pebble ChangeError). -/
def wTimeout : Workload := { wOk with exec := fun _ => .changeError "timed out" }

/-- The document rendered from cfgAllSet on wOk. -/
def contentAllSet : String :=
  renderConfigFile "amf" 38412 "192.168.251.5" "10.1.1.7" 6000 "192.168.250.3"
    "001010100007487" "001" "01" "102030" 1 "1" "192.168.252.1" "192.168.252.3"
    "5122250214c33e723a5dd523fc145fc0" "981d464c7c52eb6e5036234984ad0bcf" "16f3b3f70fc2"

/-! The claims. -/

/-- C1 counterexample: amf-port set to "abc" is an invalid parameter in the
sense of the validation rule of the specification (it fails integer parsing), yet
the reconciliation attempt does not reach a Blocked status: int() in the getter raises and the ValueError escapes with no status set at all. -/
theorem C1_counterexample :
    specInvalidValue true cfgPortNotInt.amf_port = true ∧
    (onConfigChanged cfgPortNotInt wOk).status = none ∧
    (onConfigChanged cfgPortNotInt wOk).error = some Exn.valueError := by
  exact ⟨rfl, rfl, rfl⟩

/-- C1 (amended): for every configuration on which the invalid-configuration
resolution completes and reports at least one name, the attempt sets Blocked
with a message listing every reported name, evaluates no later readiness
check, performs no side effect, does not defer and raises nothing. -/
theorem C1_theorem (c : Config) (w : Workload) (l : List String)
    (h : getInvalidConfigs c = .ok l) (hne : l ≠ []) :
    onConfigChanged c w =
      { status := some (.blocked ("Configurations are invalid: " ++ pyReprList l)),
        effects := [], checks := [.paramsValid], deferred := false, error := none } ∧
    (∀ n ∈ l, strContains ("Configurations are invalid: " ++ pyReprList l) n) := by
  refine ⟨onConfigChanged_blocked w h hne, ?_⟩
  intro n hn
  exact strContains_appendRight _ (contains_pyReprList hn)

/-- C1 witness: with only sd unset the attempt blocks on the message naming
sd, with no later check and no side effect. -/
theorem C1_witness :
    onConfigChanged cfgMissingSd wOk =
      { status := some (.blocked ("Configurations are invalid: " ++ pyReprList ["sd"])),
        effects := [], checks := [.paramsValid], deferred := false, error := none } :=
  (C1_theorem cfgMissingSd wOk ["sd"] (by decide) (by decide)).1

/-- C2: when the resolution reports nothing and the container, storage,
Multus, push and route command all succeed, the attempt renders the document,
pushes it to the fixed path, then executes the route-replacement command, and
finally sets Active; the push happens unconditionally (the outcome does not
depend on the artifact content already present). -/
theorem C2_theorem (c : Config) (w : Workload)
    (h : getInvalidConfigs c = .ok []) (hc : w.canConnect = true)
    (hb : w.basePathExists = true) (hm : w.multusReady = true)
    (hp : w.pushOk = true) (o1 o2 : Option String)
    (he : w.exec (routeCmd c) = .ok o1 o2) :
    ∃ content, renderArgs c w = .ok content ∧
      onConfigChanged c w =
        { status := some .active,
          effects := [.push configFilePath content, .exec (routeCmd c) 30 none],
          checks := allChecks, deferred := false, error := none } ∧
      routeCmd c = "ip route replace " ++ pyStr (get_upf_ip_address_from_config c)
        ++ " via " ++ pyStr (get_upf_gateway_from_config c) ∧
      (∀ prior, onConfigChanged c { w with fileContent := prior } = onConfigChanged c w) := by
  obtain ⟨g, a, s, hg, hA, hS, hr⟩ := renderArgs_ok w h
  refine ⟨_, hr, ?_, rfl, ?_⟩
  · rw [onConfigChanged_pass h hc hb hm hr, if_pos hp, he]
  · intro prior
    rfl

/-- C2 witness: the fully valid configuration on the all-success workload
ends Active with the push-then-route effect trace. -/
theorem C2_witness : (onConfigChanged cfgAllSet wOk).status = some UnitStatus.active := by
  obtain ⟨content, _, hrec, _, _⟩ :=
    C2_theorem cfgAllSet wOk (by decide) rfl rfl rfl rfl (some "")
      (some "Summary\nProfile Status: PASS\n") rfl
  rw [hrec]

/-- C3 counterexample: with amf-port unset (an unset parameter), the
resolution does not return the name list at all: int(None) raises TypeError,
so the attempt ends with no status instead of Blocked. -/
theorem C3_counterexample :
    truthyStr cfgPortUnset.amf_port = false ∧
    getInvalidConfigs cfgPortUnset = .error Exn.typeError ∧
    (onConfigChanged cfgPortUnset wOk).status = none := by
  exact ⟨rfl, rfl, rfl⟩

/-- C3 (amended): for every configuration whose two integer options parse to
non-zero integers, the resolution returns exactly the names of the
unset-or-empty parameters in declaration order, and when that list is
non-empty the status becomes Blocked with a message containing every one of
those names. -/
theorem C3_theorem (c : Config) (w : Workload) (a s : Int)
    (ha : get_amf_port_from_config c = .ok a) (ha0 : a ≠ 0)
    (hs : get_sst_from_config c = .ok s) (hs0 : s ≠ 0) :
    getInvalidConfigs c = .ok (unsetOrEmptyNames c) ∧
    (unsetOrEmptyNames c ≠ [] →
      ∃ msg, (onConfigChanged c w).status = some (.blocked msg) ∧
        ∀ n ∈ unsetOrEmptyNames c, strContains msg n) := by
  have heq := getInvalidConfigs_eq_filter ha ha0 hs hs0
  refine ⟨heq, fun hne => ?_⟩
  refine ⟨"Configurations are invalid: " ++ pyReprList (unsetOrEmptyNames c), ?_, ?_⟩
  · rw [onConfigChanged_blocked w heq hne]
  · intro n hn
    exact strContains_appendRight _ (contains_pyReprList hn)

/-- C3 witness: with sd unset and usim-key empty, the resolution returns
exactly those two names in declaration order. -/
theorem C3_witness :
    getInvalidConfigs cfgMissingTwo = .ok (unsetOrEmptyNames cfgMissingTwo) ∧
    unsetOrEmptyNames cfgMissingTwo = ["sd", "usim-key"] :=
  ⟨(C3_theorem cfgMissingTwo wOk 38412 1 (by decide) (by decide) (by decide) (by decide)).1,
    by decide⟩

/-- C4 counterexample: sst set to "two" fails integer parsing, but instead of
being classified invalid and blocking, the resolution raises ValueError and
the attempt terminates with that unhandled error and no status. -/
theorem C4_counterexample :
    specInvalidValue true cfgSstNotInt.sst = true ∧
    getInvalidConfigs cfgSstNotInt = .error Exn.valueError ∧
    (onConfigChanged cfgSstNotInt wOk).status = none ∧
    (onConfigChanged cfgSstNotInt wOk).error = some Exn.valueError := by
  exact ⟨rfl, rfl, rfl, rfl⟩

/-- C4 (amended): when an integer-typed option fails integer parsing, the
int() in the getter raises; the resolution propagates the exception instead of
listing the name, and the reconciliation attempt terminates with that
unhandled error: no status is set, no later check is evaluated, and no side
effect occurs. -/
theorem C4_theorem (c : Config) (w : Workload) (e : Exn) :
    (get_amf_port_from_config c = .error e →
      getInvalidConfigs c = .error e ∧
      onConfigChanged c w =
        { status := none, effects := [], checks := [.paramsValid], deferred := false,
          error := some e }) ∧
    (∀ a, get_amf_port_from_config c = .ok a → get_sst_from_config c = .error e →
      getInvalidConfigs c = .error e ∧
      onConfigChanged c w =
        { status := none, effects := [], checks := [.paramsValid], deferred := false,
          error := some e }) := by
  constructor
  · intro hA
    have hg : getInvalidConfigs c = .error e := by
      unfold getInvalidConfigs
      rw [hA]
    exact ⟨hg, onConfigChanged_raise w hg⟩
  · intro a hA hS
    have hg : getInvalidConfigs c = .error e := by
      unfold getInvalidConfigs
      rw [hA, hS]
    exact ⟨hg, onConfigChanged_raise w hg⟩

/-- C4 witness: the non-integer sst makes the resolution raise ValueError and
the attempt end with no status. -/
theorem C4_witness :
    getInvalidConfigs cfgSstNotInt = .error Exn.valueError ∧
    (onConfigChanged cfgSstNotInt wOk).status = none := by
  obtain ⟨hg, hrec⟩ :=
    (C4_theorem cfgSstNotInt wOk Exn.valueError).2 38412 (by decide) (by decide)
  exact ⟨hg, by rw [hrec]⟩

/-- C5: when the simulation command runs and returns an outcome, an empty (or
absent) diagnostic stream makes the action fail with "No output in
simulation" and produce no result; a non-empty diagnostic stream produces a
result whose success field is the string "true" exactly when the stream
contains the literal substring "Profile Status: PASS", and "false"
otherwise. -/
theorem C5_theorem (w : Workload) (hc : w.canConnect = true)
    (hf : w.configFileExists = true) (out stderrOpt : Option String)
    (he : w.exec simulationCommand = .ok out stderrOpt) :
    (truthyStr stderrOpt = false →
      onStartSimulationAction w =
        { failure := some "No output in simulation", results := none,
          effects := [.exec simulationCommand 30 (some (environmentVariables w))] }) ∧
    (∀ e, stderrOpt = some e → truthyStr stderrOpt = true →
      (onStartSimulationAction w).failure = none ∧
      (onStartSimulationAction w).results = some
        [("success", if pyInStr "Profile Status: PASS" e then "true" else "false"),
         ("info", "run juju debug-log to get more information.")] ∧
      ((if pyInStr "Profile Status: PASS" e then "true" else "false") = "true"
        ↔ strContains e "Profile Status: PASS")) := by
  have hx : onStartSimulationAction w =
      (if (!truthyStr stderrOpt) = true then
        { failure := some "No output in simulation", results := none,
          effects := [.exec simulationCommand 30 (some (environmentVariables w))] }
      else
        { failure := none,
          results := some
            [("success",
              if pyInStr "Profile Status: PASS" (pyStr stderrOpt) then "true" else "false"),
             ("info", "run juju debug-log to get more information.")],
          effects := [.exec simulationCommand 30 (some (environmentVariables w))] }) := by
    rw [onStartSimulationAction_exec hc hf, he]
  constructor
  · intro hemp
    rw [hx, if_pos (show (!truthyStr stderrOpt) = true by rw [hemp]; rfl)]
  · intro e hee htr
    subst hee
    have hres : onStartSimulationAction w =
        { failure := none,
          results := some
            [("success", if pyInStr "Profile Status: PASS" e then "true" else "false"),
             ("info", "run juju debug-log to get more information.")],
          effects := [.exec simulationCommand 30 (some (environmentVariables w))] } := by
      rw [hx, if_neg (show ¬ ((!truthyStr (some e)) = true) by rw [htr]; decide)]
      rfl
    rw [hres]
    refine ⟨rfl, rfl, ?_⟩
    by_cases hm : pyInStr "Profile Status: PASS" e = true
    · rw [if_pos hm]
      exact ⟨fun _ => pyInStr_iff.mp hm, fun _ => rfl⟩
    · have hm2 : pyInStr "Profile Status: PASS" e = false := by
        exact Bool.eq_false_iff.mpr hm
      rw [if_neg (by rw [hm2]; exact Bool.false_ne_true)]
      constructor
      · intro habs
        exact absurd habs (by decide)
      · intro hcon
        exact absurd (pyInStr_iff.mpr hcon) (by rw [hm2]; exact Bool.false_ne_true)

/-- C5 witness: the passing simulation output yields success "true" and no
failure. -/
theorem C5_witness :
    (onStartSimulationAction wOk).failure = none ∧
    (onStartSimulationAction wOk).results = some
      [("success", "true"), ("info", "run juju debug-log to get more information.")] := by
  obtain ⟨hfail, hres, _⟩ :=
    (C5_theorem wOk rfl rfl (some "") (some "Summary\nProfile Status: PASS\n") rfl).2
      "Summary\nProfile Status: PASS\n" rfl (by decide)
  refine ⟨hfail, ?_⟩
  rw [hres]
  rw [if_pos (by decide : pyInStr "Profile Status: PASS" "Summary\nProfile Status: PASS\n" = true)]

/-- C6: the two action preconditions are checked in order before any
execution: an unreachable container fails the action with "Container is not
ready" and runs nothing; a reachable container without the artifact fails
with "Config file is not written" and runs nothing. -/
theorem C6_theorem (w : Workload) :
    (w.canConnect = false →
      onStartSimulationAction w =
        { failure := some "Container is not ready", results := none, effects := [] }) ∧
    (w.canConnect = true → w.configFileExists = false →
      onStartSimulationAction w =
        { failure := some "Config file is not written", results := none, effects := [] }) := by
  constructor
  · intro h
    simp [onStartSimulationAction, h]
  · intro h1 h2
    simp [onStartSimulationAction, h1, h2]

/-- C6 witness: both failure shapes at concrete workloads. -/
theorem C6_witness :
    onStartSimulationAction wNoConnect =
      { failure := some "Container is not ready", results := none, effects := [] } ∧
    onStartSimulationAction wNoFile =
      { failure := some "Config file is not written", results := none, effects := [] } :=
  ⟨(C6_theorem wNoConnect).1 rfl, (C6_theorem wNoFile).2 rfl rfl⟩

/-- C7: after the whole gate passes, a push failure or a route-command
failure escapes the reconciler: the exception is recorded as escaping, no
status is set (in particular neither Blocked nor Waiting), and the trace
stops at the failing step. -/
theorem C7_theorem (c : Config) (w : Workload)
    (h : getInvalidConfigs c = .ok []) (hc : w.canConnect = true)
    (hb : w.basePathExists = true) (hm : w.multusReady = true) :
    (w.pushOk = false → ∃ content, renderArgs c w = .ok content ∧
      onConfigChanged c w =
        { status := none, effects := [.push configFilePath content], checks := allChecks,
          deferred := false, error := some .pushError }) ∧
    (w.pushOk = true → ∀ st, w.exec (routeCmd c) = .execError st →
      ∃ content, onConfigChanged c w =
        { status := none,
          effects := [.push configFilePath content, .exec (routeCmd c) 30 none],
          checks := allChecks, deferred := false, error := some (.execError st) }) ∧
    (w.pushOk = true → ∀ e, w.exec (routeCmd c) = .changeError e →
      ∃ content, onConfigChanged c w =
        { status := none,
          effects := [.push configFilePath content, .exec (routeCmd c) 30 none],
          checks := allChecks, deferred := false, error := some (.changeError e) }) := by
  obtain ⟨g, a, s, hg, hA, hS, hr⟩ := renderArgs_ok w h
  have hpass := onConfigChanged_pass h hc hb hm hr
  refine ⟨?_, ?_, ?_⟩
  · intro hpf
    refine ⟨_, hr, ?_⟩
    rw [hpass, if_neg (by rw [hpf]; exact Bool.false_ne_true)]
  · intro hpt st hex
    exact ⟨_, by rw [hpass, if_pos hpt, hex]⟩
  · intro hpt e hex
    exact ⟨_, by rw [hpass, if_pos hpt, hex]⟩

/-- C7 witness: on the push-failing workload the valid configuration ends
with no status and the escaped push exception. -/
theorem C7_witness :
    (onConfigChanged cfgAllSet wPushFail).status = none ∧
    (onConfigChanged cfgAllSet wPushFail).error = some Exn.pushError := by
  obtain ⟨content, _, hrec⟩ :=
    (C7_theorem cfgAllSet wPushFail (by decide) rfl rfl rfl).1 rfl
  exact ⟨by rw [hrec], by rw [hrec]⟩

/-- C8 counterexample: the command executed with the IP/memory environment
and the command executed without any environment record the same timeout, 30
seconds, so the timeout is not shorter in the environment-supplied case. -/
theorem C8_counterexample :
    effectTimeout (execCommandInWorkload wOk simulationCommand
      (some (environmentVariables wOk))).2 = 30 ∧
    effectTimeout (execCommandInWorkload wOk (routeCmd cfgAllSet) none).2 = 30 ∧
    ¬ effectTimeout (execCommandInWorkload wOk simulationCommand
        (some (environmentVariables wOk))).2
      < effectTimeout (execCommandInWorkload wOk (routeCmd cfgAllSet) none).2 := by
  exact ⟨rfl, rfl, by decide⟩

/-- C8 (amended): every command executed in the workload records the same
bounded timeout of 30 seconds, whether or not an environment is supplied; a
timeout expiry surfaces as the pebble ChangeError, which the action handler
reports as a command-execution failure message, not as any status or
result. -/
theorem C8_theorem (w : Workload) (command : String)
    (environment : Option (List (String × String))) :
    (execCommandInWorkload w command environment).2 = .exec command 30 environment ∧
    (∀ e, w.canConnect = true → w.configFileExists = true →
      w.exec simulationCommand = .changeError e →
      onStartSimulationAction w =
        { failure := some ("Failed to execute simulation: " ++ e), results := none,
          effects := [.exec simulationCommand 30 (some (environmentVariables w))] }) := by
  refine ⟨rfl, ?_⟩
  intro e hc hf hex
  rw [onStartSimulationAction_exec hc hf, hex]

/-- C8 witness: on the timing-out workload the effect records timeout 30 and
the action fails with the execution-failure message. -/
theorem C8_witness :
    (execCommandInWorkload wTimeout simulationCommand
      (some (environmentVariables wTimeout))).2
      = Effect.exec simulationCommand 30 (some (environmentVariables wTimeout)) ∧
    onStartSimulationAction wTimeout =
      { failure := some ("Failed to execute simulation: " ++ "timed out"), results := none,
        effects := [.exec simulationCommand 30 (some (environmentVariables wTimeout))] } :=
  ⟨(C8_theorem wTimeout simulationCommand (some (environmentVariables wTimeout))).1,
    (C8_theorem wTimeout simulationCommand (some (environmentVariables wTimeout))).2
      "timed out" rfl rfl rfl⟩

set_option maxRecDepth 16384 in
/-- C9 counterexample: the configured gnb-ip-address "192.168.251.5/24" does
not appear in the written document — only the part before the "/" does — so
the configured local-interface-address is not embedded exactly as
configured. -/
theorem C9_counterexample :
    get_gnb_ip_address_from_config cfgAllSet = some "192.168.251.5/24" ∧
    pushedContents (onConfigChanged cfgAllSet wOk) = [contentAllSet] ∧
    pyInStr "192.168.251.5/24" contentAllSet = false ∧
    pyInStr "192.168.251.5" contentAllSet = true := by
  refine ⟨rfl, by decide, by decide, by decide⟩

/-- C9 (amended): on a full gate pass the written document is
renderConfigFile applied to the getter values, embedding every string
parameter verbatim, the two integer parameters as decimal integers, the
HTTP server address of the unit and the fixed port 6000 — except the
gnb-ip-address, which is embedded as the text before its first "/". -/
theorem C9_theorem (c : Config) (w : Workload)
    (h : getInvalidConfigs c = .ok []) (hc : w.canConnect = true)
    (hb : w.basePathExists = true) (hm : w.multusReady = true) (hp : w.pushOk = true) :
    ∃ g a s content, get_gnb_ip_address_from_config c = some g ∧
      get_amf_port_from_config c = .ok a ∧ get_sst_from_config c = .ok s ∧
      renderArgs c w = .ok content ∧
      pushedContents (onConfigChanged c w) = [content] ∧
      content = renderConfigFile (pyStr (get_amf_hostname_from_config c)) a
        (pySplitHead g) w.podIp HTTP_SERVER_PORT
        (pyStr (get_icmp_packet_destination_from_config c))
        (pyStr (get_imsi_from_config c)) (pyStr (get_mcc_from_config c))
        (pyStr (get_mnc_from_config c)) (pyStr (get_sd_from_config c)) s
        (pyStr (get_tac_from_config c)) (pyStr (get_upf_gateway_from_config c))
        (pyStr (get_upf_ip_address_from_config c)) (pyStr (get_usim_key_from_config c))
        (pyStr (get_usim_opc_from_config c))
        (pyStr (get_usim_sequence_number_from_config c)) ∧
      strContains content (pySplitHead g) ∧
      strContains content (toString a) ∧ strContains content (toString s) ∧
      strContains content w.podIp ∧ strContains content (toString HTTP_SERVER_PORT) ∧
      (∀ v ∈ stringParamValues c, strContains content v) := by
  obtain ⟨g, a, s, hg, hA, hS, hr⟩ := renderArgs_ok w h
  have hpass := onConfigChanged_pass h hc hb hm hr
  refine ⟨g, a, s, _, hg, hA, hS, hr, ?_, rfl, ?_, ?_, ?_, ?_, ?_, ?_⟩
  · rw [show onConfigChanged c w =
        (if w.pushOk = true then
          match w.exec (routeCmd c) with
          | .ok _ _ =>
            { status := some .active,
              effects := [.push configFilePath _, .exec (routeCmd c) 30 none],
              checks := allChecks, deferred := false, error := none }
          | .execError st =>
            { status := none,
              effects := [.push configFilePath _, .exec (routeCmd c) 30 none],
              checks := allChecks, deferred := false, error := some (.execError st) }
          | .changeError e =>
            { status := none,
              effects := [.push configFilePath _, .exec (routeCmd c) 30 none],
              checks := allChecks, deferred := false, error := some (.changeError e) }
        else
          { status := none, effects := [.push configFilePath _], checks := allChecks,
            deferred := false, error := some .pushError }) from hpass,
      if_pos hp]
    cases w.exec (routeCmd c) <;> rfl
  · exact contains_concatKVLines "gnb_ip_address" (by simp [renderConfigFile])
  · exact contains_concatKVLines "amf_port" (by simp [renderConfigFile])
  · exact contains_concatKVLines "sst" (by simp [renderConfigFile])
  · exact contains_concatKVLines "http_server_ip" (by simp [renderConfigFile])
  · exact contains_concatKVLines "http_server_port" (by simp [renderConfigFile])
  · intro v hv
    simp only [stringParamValues, List.mem_cons, List.not_mem_nil, or_false] at hv
    rcases hv with rfl | rfl | rfl | rfl | rfl | rfl | rfl | rfl | rfl | rfl | rfl | rfl
    · exact contains_concatKVLines "amf_hostname" (by simp [renderConfigFile])
    · exact contains_concatKVLines "icmp_packet_destination" (by simp [renderConfigFile])
    · exact contains_concatKVLines "imsi" (by simp [renderConfigFile])
    · exact contains_concatKVLines "mcc" (by simp [renderConfigFile])
    · exact contains_concatKVLines "mnc" (by simp [renderConfigFile])
    · exact contains_concatKVLines "sd" (by simp [renderConfigFile])
    · exact contains_concatKVLines "tac" (by simp [renderConfigFile])
    · exact contains_concatKVLines "upf_gateway" (by simp [renderConfigFile])
    · exact contains_concatKVLines "upf_ip_address" (by simp [renderConfigFile])
    · exact contains_concatKVLines "usim_key" (by simp [renderConfigFile])
    · exact contains_concatKVLines "usim_opc" (by simp [renderConfigFile])
    · exact contains_concatKVLines "usim_sequence_number" (by simp [renderConfigFile])

set_option maxRecDepth 16384 in
/-- C9 witness: the concrete valid configuration pushes exactly the expected
document, whose gnb field carries the split address. -/
theorem C9_witness : pushedContents (onConfigChanged cfgAllSet wOk) = [contentAllSet] := by
  obtain ⟨g, a, s, content, hg, hA, hS, hr, hpc, _⟩ :=
    C9_theorem cfgAllSet wOk (by decide) rfl rfl rfl rfl
  have h2 : renderArgs cfgAllSet wOk = Except.ok contentAllSet := by decide
  rw [h2] at hr
  injection hr with hcc
  rw [hpc, ← hcc]

/-- C10 counterexample: amf-port is set and parses to the integer 0, yet the
attempt does not become Blocked and no invalid list is returned: after
"amf-port" is appended, the sst getter applies int() to "two", the ValueError
escapes the resolution, the built list is discarded and no status is set. -/
theorem C10_counterexample :
    pyIntOpt cfgZeroAndBad.amf_port = Except.ok 0 ∧
    getInvalidConfigs cfgZeroAndBad = .error Exn.valueError ∧
    (onConfigChanged cfgZeroAndBad wOk).status = none ∧
    (onConfigChanged cfgZeroAndBad wOk).error = some Exn.valueError := by
  exact ⟨rfl, rfl, rfl, rfl⟩

/-- C10 (amended): an integer option that parses to 0 is treated exactly like
a missing one — its name joins the invalid list (truthiness of the parsed
value) and the attempt blocks — provided the other integer getter retrieves
successfully; when that getter raises instead, the exception discards the
list and no status is set. -/
theorem C10_theorem (c : Config) (w : Workload) :
    (∀ s, get_amf_port_from_config c = .ok 0 → get_sst_from_config c = .ok s →
      ∃ l, getInvalidConfigs c = .ok l ∧ "amf-port" ∈ l ∧
        ∃ msg, (onConfigChanged c w).status = some (.blocked msg)) ∧
    (∀ a, get_amf_port_from_config c = .ok a → get_sst_from_config c = .ok 0 →
      ∃ l, getInvalidConfigs c = .ok l ∧ "sst" ∈ l ∧
        ∃ msg, (onConfigChanged c w).status = some (.blocked msg)) := by
  constructor
  · intro s hA hS
    obtain ⟨l, hl⟩ : ∃ l, getInvalidConfigs c = .ok l := by
      unfold getInvalidConfigs
      rw [hA, hS]
      exact ⟨_, rfl⟩
    have hmem : "amf-port" ∈ l := by
      unfold getInvalidConfigs at hl
      rw [hA, hS] at hl
      injection hl with hl2
      rw [← hl2]
      simp
    refine ⟨l, hl, hmem, ?_⟩
    exact ⟨"Configurations are invalid: " ++ pyReprList l,
      by rw [onConfigChanged_blocked w hl (List.ne_nil_of_mem hmem)]⟩
  · intro a hA hS
    obtain ⟨l, hl⟩ : ∃ l, getInvalidConfigs c = .ok l := by
      unfold getInvalidConfigs
      rw [hA, hS]
      exact ⟨_, rfl⟩
    have hmem : "sst" ∈ l := by
      unfold getInvalidConfigs at hl
      rw [hA, hS] at hl
      injection hl with hl2
      rw [← hl2]
      simp
    refine ⟨l, hl, hmem, ?_⟩
    exact ⟨"Configurations are invalid: " ++ pyReprList l,
      by rw [onConfigChanged_blocked w hl (List.ne_nil_of_mem hmem)]⟩

/-- C10 witness: amf-port set to "0" joins the invalid list and blocks the
attempt. -/
theorem C10_witness :
    getInvalidConfigs cfgZeroPort = .ok ["amf-port"] ∧
    (∃ msg, (onConfigChanged cfgZeroPort wOk).status = some (.blocked msg)) := by
  obtain ⟨l, _, _, hmsg⟩ := (C10_theorem cfgZeroPort wOk).1 1 (by decide) (by decide)
  exact ⟨by decide, hmsg⟩

end Gnbsim
